import Mathlib

namespace ReduxAuth

/-!
Shallow embedding of the react-redux-auth-client repository:
the auth reducer (src/reducers, `authReducer`), the token storage helpers
(`setToken`, `getToken`) and the thunk action creators
(`checkAuth`, `signupUser`, `loginUser`, `logoutUser`) from
`src/actions/auth.js`.

JavaScript values appearing as action payloads and response bodies are
modelled by the inductive type `JsVal`; `localStorage` is modelled by the
`Storage` structure (each key either absent or holding a value); a thunk
run against one HTTP response is modelled as a pure function from the
response, the storage contents and the current time to a `RunResult`
recording the request it sent, the actions it dispatched in order, the
storage afterwards, and the settled value of the returned promise.
-/

/-- A JavaScript value: an object (ordered field list), a string, a number,
or `undefined` (the result of a missing field access). -/
inductive JsVal where
  | obj : List (String × JsVal) → JsVal
  | str : String → JsVal
  | num : Int → JsVal
  | undefined : JsVal

/-- Field access `v.k` in JavaScript: on objects, the first binding of the
key, `undefined` when absent or when `v` is not an object. -/
def JsVal.getField : JsVal → String → JsVal
  | .obj fs, k =>
      match fs.lookup k with
      | some v => v
      | none => .undefined
  | _, _ => .undefined

/-- `v` is an object with at least one field. -/
def JsVal.isNonEmptyObj : JsVal → Bool
  | .obj (_ :: _) => true
  | _ => false

/-- The redux actions handled by `authReducer`: the two recognized types
`AUTHENTICATED` (with payload) and `NOT_AUTHENTICATED`, plus any other
action type (hitting the reducer's `default` branch). -/
inductive Action where
  | authenticated : JsVal → Action
  | notAuthenticated : Action
  | other : String → Action

/-- `action.type` is one of the two recognized auth action types. -/
def Action.recognized : Action → Bool
  | .authenticated _ => true
  | .notAuthenticated => true
  | .other _ => false

/-- The auth slice of the redux state. -/
structure AuthState where
  authChecked : Bool
  loggedIn : Bool
  currentUser : JsVal

/-- `initialState` from src/reducers: `{authChecked:false, loggedIn:false,
currentUser:{}}`. -/
def initialState : AuthState :=
  { authChecked := false, loggedIn := false, currentUser := .obj [] }

/-- `authReducer(state, action)` from src/reducers. -/
def authReducer (state : AuthState) (action : Action) : AuthState :=
  match action with
  | .authenticated payload =>
      { authChecked := true, loggedIn := true, currentUser := payload }
  | .notAuthenticated =>
      { authChecked := true, loggedIn := false, currentUser := .obj [] }
  | .other _ => state

/-- The `localStorage` keys the module touches: each is either absent
(`none`, so `getItem` returns `null`) or holds a value.  `lastLoginTime`
is written as a millisecond timestamp and read back numerically. -/
structure Storage where
  token : Option String
  lastLoginTime : Option Int
  deriving DecidableEq, Repr

/-- `headers.get("Authorization")` returns a string or `null`;
`localStorage.setItem` coerces `null` to the string `"null"`. -/
def headerString : Option String → String
  | some s => s
  | none => "null"

/-- `setToken(token)` from src/actions/auth.js: stores the token under
`"token"` and the current time under `"lastLoginTime"`. -/
def setToken (now : Int) (token : String) (_store : Storage) : Storage :=
  { token := some token, lastLoginTime := some now }

/-- `getToken()` from src/actions/auth.js: computes
`now - localStorage.getItem("lastLoginTime")` (a missing key reads as
`null`, which coerces to `0`) and returns the stored token when the delta
is below thirty minutes, `undefined` otherwise. -/
def getToken (now : Int) (store : Storage) : Option String :=
  let thirtyMinutes : Int := 1000 * 60 * 30
  let timeSinceLastLogin := now - (store.lastLoginTime.getD 0)
  if timeSinceLastLogin < thirtyMinutes then store.token else none

/-- One HTTP response as the thunks observe it: `res.ok`, the
`Authorization` response header, and the parsed JSON body. -/
structure HttpResponse where
  ok : Bool
  authHeader : Option String
  body : JsVal

/-- The request a thunk sends: URL, method, `Authorization` request header
(when set) and JSON body (when present). -/
structure Request where
  url : String
  method : String
  authHeader : Option String
  body : Option JsVal

/-- What a settled promise carries: `dispatch(action)` returns the action
itself, while other chains settle with a plain value. -/
inductive PromiseVal where
  | action : Action → PromiseVal
  | val : JsVal → PromiseVal

/-- The settled state of the promise a thunk returns. -/
inductive PResult where
  | resolved : PromiseVal → PResult
  | rejected : PromiseVal → PResult

/-- The observable effects of running one thunk against one response. -/
structure RunResult where
  request : Request
  dispatched : List Action
  store : Storage
  result : PResult

/-- `checkAuth()` from src/actions/auth.js: GET the current-user endpoint
with `getToken()` attached; on ok, dispatch `AUTHENTICATED` with the parsed
body and resolve with the dispatch result; on non-ok, dispatch
`NOT_AUTHENTICATED` and reject with the dispatch result. -/
def checkAuth (res : HttpResponse) (store : Storage) (now : Int) : RunResult :=
  let req : Request :=
    { url := "http://localhost:3001/current_user", method := "GET",
      authHeader := getToken now store, body := none }
  if res.ok then
    { request := req,
      dispatched := [.authenticated res.body],
      store := store,
      result := .resolved (.action (.authenticated res.body)) }
  else
    { request := req,
      dispatched := [.notAuthenticated],
      store := store,
      result := .rejected (.action .notAuthenticated) }

/-- `signupUser(credentials)` from src/actions/auth.js: POST
`{user: credentials}` to `/signup`; on ok, `setToken` the response's
`Authorization` header, dispatch `AUTHENTICATED` with `userJson.data` and
resolve with the dispatch result; on non-ok, dispatch `NOT_AUTHENTICATED`
and reject with the parsed error body. -/
def signupUser (credentials : JsVal) (res : HttpResponse) (store : Storage)
    (now : Int) : RunResult :=
  let req : Request :=
    { url := "http://localhost:3001/signup", method := "POST",
      authHeader := none, body := some (.obj [("user", credentials)]) }
  if res.ok then
    { request := req,
      dispatched := [.authenticated (res.body.getField "data")],
      store := setToken now (headerString res.authHeader) store,
      result := .resolved (.action (.authenticated (res.body.getField "data"))) }
  else
    { request := req,
      dispatched := [.notAuthenticated],
      store := store,
      result := .rejected (.val res.body) }

/-- `loginUser(credentials)` from src/actions/auth.js: POST
`{user: credentials}` to `/login`; on ok, `setToken` the response's
`Authorization` header, dispatch `AUTHENTICATED` with `userJson.data` and
resolve with the dispatch result; on non-ok, dispatch `NOT_AUTHENTICATED`
and reject with the parsed error body. -/
def loginUser (credentials : JsVal) (res : HttpResponse) (store : Storage)
    (now : Int) : RunResult :=
  let req : Request :=
    { url := "http://localhost:3001/login", method := "POST",
      authHeader := none, body := some (.obj [("user", credentials)]) }
  if res.ok then
    { request := req,
      dispatched := [.authenticated (res.body.getField "data")],
      store := setToken now (headerString res.authHeader) store,
      result := .resolved (.action (.authenticated (res.body.getField "data"))) }
  else
    { request := req,
      dispatched := [.notAuthenticated],
      store := store,
      result := .rejected (.val res.body) }

/-- `logoutUser()` from src/actions/auth.js: DELETE `/logout` with
`getToken()` attached; on ok, dispatch `NOT_AUTHENTICATED` and resolve with
the dispatch result; on non-ok, dispatch `NOT_AUTHENTICATED` and reject
with the parsed error body. -/
def logoutUser (res : HttpResponse) (store : Storage) (now : Int) : RunResult :=
  let req : Request :=
    { url := "http://localhost:3001/logout", method := "DELETE",
      authHeader := getToken now store, body := none }
  if res.ok then
    { request := req,
      dispatched := [.notAuthenticated],
      store := store,
      result := .resolved (.action .notAuthenticated) }
  else
    { request := req,
      dispatched := [.notAuthenticated],
      store := store,
      result := .rejected (.val res.body) }

/-- The state `loggedIn` and non-empty `currentUser` co-occur in. -/
def loggedInIffNonEmpty (s : AuthState) : Prop :=
  s.loggedIn = true ↔ s.currentUser.isNonEmptyObj = true

/-- An `AUTHENTICATED` action whose payload is a non-empty object, or any
non-`AUTHENTICATED` action. -/
def nonEmptyPayload : Action → Bool
  | .authenticated p => p.isNonEmptyObj
  | _ => true

/-- Helper: one reducer step preserves the co-occurrence of `loggedIn` and a
non-empty `currentUser`, provided the action's payload (when it is
`AUTHENTICATED`) is a non-empty object. -/
theorem loggedInIffNonEmpty_step (s : AuthState) (a : Action)
    (hs : loggedInIffNonEmpty s) (ha : nonEmptyPayload a = true) :
    loggedInIffNonEmpty (authReducer s a) := by
  cases a with
  | authenticated p =>
      simpa [authReducer, loggedInIffNonEmpty, nonEmptyPayload] using ha
  | notAuthenticated =>
      simp [authReducer, loggedInIffNonEmpty, JsVal.isNonEmptyObj]
  | other t =>
      simpa [authReducer] using hs

/-- Helper: the invariant is preserved along any fold of the reducer whose
`AUTHENTICATED` payloads are all non-empty objects. -/
theorem loggedInIffNonEmpty_foldl (acts : List Action) :
    ∀ (s : AuthState), loggedInIffNonEmpty s →
      (∀ a ∈ acts, nonEmptyPayload a = true) →
      loggedInIffNonEmpty (List.foldl authReducer s acts) := by
  induction acts with
  | nil =>
      intro s hs _
      simpa using hs
  | cons a rest ih =>
      intro s hs hall
      simp only [List.foldl_cons]
      exact ih _ (loggedInIffNonEmpty_step s a hs (hall a (by simp)))
        (fun x hx => hall x (by simp [hx]))

/-- C1: the claim as stated is false — dispatching `AUTHENTICATED` with an
empty-object payload (which the reducer accepts) from the initial state
yields `loggedIn = true` with an empty `currentUser`. -/
theorem C1_counterexample :
    ¬ loggedInIffNonEmpty
      (List.foldl authReducer initialState [Action.authenticated (JsVal.obj [])]) := by
  intro h
  simp [loggedInIffNonEmpty, authReducer, initialState, JsVal.isNonEmptyObj] at h

/-- C1 (amended): for every sequence of dispatched events in which each
`AUTHENTICATED` payload is a non-empty object, the state reached from the
initial state satisfies: `loggedIn` is true iff `currentUser` is a
non-empty object. -/
theorem C1_loggedIn_iff_nonEmpty (actions : List Action)
    (h : ∀ a ∈ actions, nonEmptyPayload a = true) :
    loggedInIffNonEmpty (List.foldl authReducer initialState actions) :=
  loggedInIffNonEmpty_foldl actions initialState
    (by simp [loggedInIffNonEmpty, initialState, JsVal.isNonEmptyObj]) h

/-- C1 witness: the amended invariant on a concrete event sequence. -/
theorem C1_witness :
    loggedInIffNonEmpty (List.foldl authReducer initialState
      [Action.authenticated (JsVal.obj [("id", JsVal.num 1)]),
       Action.notAuthenticated,
       Action.authenticated (JsVal.obj [("email", JsVal.str "a@b.com")])]) :=
  C1_loggedIn_iff_nonEmpty _ (by
    intro a ha
    simp only [List.mem_cons, List.not_mem_nil, or_false] at ha
    rcases ha with h | h | h <;> subst h <;> rfl)

/-- C2: when a `lastLoginTime` and a token are stored, `getToken` returns
the stored token exactly when `now - lastLoginTime < 1,800,000` ms, and an
undefined value otherwise. -/
theorem C2_getToken_threshold (now t : Int) (tok : String) (store : Storage)
    (hlt : store.lastLoginTime = some t) (htok : store.token = some tok) :
    (now - t < 1800000 → getToken now store = some tok) ∧
    (1800000 ≤ now - t → getToken now store = none) := by
  constructor <;> intro h <;> simp only [getToken, hlt, htok, Option.getD_some]
  · rw [if_pos (by omega)]
  · rw [if_neg (by omega)]

/-- C2 witness: a login 10 minutes old yields the stored token; one 31
minutes old yields none. -/
theorem C2_witness :
    getToken 600000 { token := some "tok", lastLoginTime := some 0 } = some "tok" ∧
    getToken 1860000 { token := some "tok", lastLoginTime := some 0 } = none :=
  ⟨(C2_getToken_threshold 600000 0 "tok" _ rfl rfl).1 (by decide),
   (C2_getToken_threshold 1860000 0 "tok" _ rfl rfl).2 (by decide)⟩

/-- C3: the claim as stated is false for `checkAuth` — on a non-ok response
with body `{error:"invalid"}` it rejects with the dispatched
`NOT_AUTHENTICATED` action, not with the parsed error body. -/
theorem C3_counterexample :
    (checkAuth { ok := false, authHeader := none,
                 body := JsVal.obj [("error", JsVal.str "invalid")] }
        { token := none, lastLoginTime := none } 0).result ≠
      PResult.rejected (PromiseVal.val (JsVal.obj [("error", JsVal.str "invalid")])) := by
  intro h
  simp [checkAuth] at h

/-- C3 (amended): on every non-ok response, `signupUser`, `loginUser` and
`logoutUser` produce a rejected outcome carrying the parsed error body,
while `checkAuth` produces a rejected outcome carrying the dispatched
`NOT_AUTHENTICATED` action; no creator signals failure synchronously. -/
theorem C3_nonok_rejections (creds : JsVal) (res : HttpResponse)
    (store : Storage) (now : Int) (h : res.ok = false) :
    (signupUser creds res store now).result = .rejected (.val res.body) ∧
    (loginUser creds res store now).result = .rejected (.val res.body) ∧
    (logoutUser res store now).result = .rejected (.val res.body) ∧
    (checkAuth res store now).result = .rejected (.action .notAuthenticated) := by
  refine ⟨?_, ?_, ?_, ?_⟩ <;> simp [signupUser, loginUser, logoutUser, checkAuth, h]

/-- C3 witness: the amended rejection behaviour at a concrete non-ok
response. -/
theorem C3_witness :
    (signupUser (JsVal.obj [])
        { ok := false, authHeader := none, body := JsVal.str "err" }
        { token := none, lastLoginTime := none } 0).result =
      .rejected (.val (JsVal.str "err")) ∧
    (loginUser (JsVal.obj [])
        { ok := false, authHeader := none, body := JsVal.str "err" }
        { token := none, lastLoginTime := none } 0).result =
      .rejected (.val (JsVal.str "err")) ∧
    (logoutUser { ok := false, authHeader := none, body := JsVal.str "err" }
        { token := none, lastLoginTime := none } 0).result =
      .rejected (.val (JsVal.str "err")) ∧
    (checkAuth { ok := false, authHeader := none, body := JsVal.str "err" }
        { token := none, lastLoginTime := none } 0).result =
      .rejected (.action .notAuthenticated) :=
  C3_nonok_rejections (JsVal.obj []) _ _ 0 rfl

/-- The user object of the C4 scenario: `{id:1, email:"a@b.com"}`. -/
def sampleUser : JsVal :=
  .obj [("id", .num 1), ("email", .str "a@b.com")]

/-- The ok sign-up response of the C4 scenario: `Authorization` header
`"abc"` and body whose `data` field is `sampleUser`. -/
def sampleSignupRes : HttpResponse :=
  { ok := true, authHeader := some "abc", body := .obj [("data", sampleUser)] }

/-- C4: after `signupUser` completes against an ok response with user
`{id:1,email:"a@b.com"}` and `Authorization` header `"abc"`, the token
store holds `"abc"` and folding the dispatched events into the initial
state yields exactly `{authChecked:true, loggedIn:true,
currentUser:{id:1,email:"a@b.com"}}`. -/
theorem C4_signup_scenario (creds : JsVal) (store : Storage) (now : Int) :
    (signupUser creds sampleSignupRes store now).store.token = some "abc" ∧
    (signupUser creds sampleSignupRes store now).store.lastLoginTime = some now ∧
    List.foldl authReducer initialState
        (signupUser creds sampleSignupRes store now).dispatched =
      { authChecked := true, loggedIn := true, currentUser := sampleUser } := by
  refine ⟨?_, ?_, ?_⟩ <;>
    simp [signupUser, sampleSignupRes, setToken, headerString, JsVal.getField,
      authReducer, sampleUser]

/-- C5: `authChecked` is monotone — once true, no dispatched event reverts
it to false. -/
theorem C5_authChecked_monotone (s : AuthState) (a : Action)
    (h : s.authChecked = true) : (authReducer s a).authChecked = true := by
  cases a <;> simp [authReducer, h]

/-- C5 witness: an unrecognized action keeps `authChecked` true. -/
theorem C5_witness :
    (authReducer { authChecked := true, loggedIn := false, currentUser := .obj [] }
      (.other "SOMETHING_ELSE")).authChecked = true :=
  C5_authChecked_monotone _ _ rfl

/-- C6: from every state, `NOT_AUTHENTICATED` yields exactly
`{authChecked:true, loggedIn:false, currentUser:{}}`. -/
theorem C6_notAuthenticated_resets (s : AuthState) :
    authReducer s .notAuthenticated =
      { authChecked := true, loggedIn := false, currentUser := .obj [] } :=
  rfl

/-- C7: on every response outcome, `logoutUser` dispatches exactly one
`NOT_AUTHENTICATED` event; on non-ok it additionally rejects with the
parsed error body (and resolves on ok). -/
theorem C7_logout_dispatch (res : HttpResponse) (store : Storage) (now : Int) :
    (logoutUser res store now).dispatched = [Action.notAuthenticated] ∧
    (logoutUser res store now).result =
      (if res.ok then PResult.resolved (.action .notAuthenticated)
       else PResult.rejected (.val res.body)) := by
  cases hok : res.ok <;> simp [logoutUser, hok]

/-- C8: `checkAuth` and `logoutUser` leave the `token` and `lastLoginTime`
keys unchanged on every outcome (so explicit logout and expiry detection
never clear them), and `signupUser`/`loginUser` write them only through
`setToken` on an ok response — `getToken` itself, as a pure read of the
store, purges nothing. -/
theorem C8_storage_frame (creds : JsVal) (res : HttpResponse)
    (store : Storage) (now : Int) :
    (checkAuth res store now).store = store ∧
    (logoutUser res store now).store = store ∧
    (signupUser creds res store now).store =
      (if res.ok then setToken now (headerString res.authHeader) store else store) ∧
    (loginUser creds res store now).store =
      (if res.ok then setToken now (headerString res.authHeader) store else store) := by
  cases hok : res.ok <;> simp [checkAuth, logoutUser, signupUser, loginUser, hok]

/-- C9: `signupUser` and `loginUser` are behaviourally equivalent except
for the endpoint path — same method, headers and body on the request, and
identical dispatches, storage effect and settled outcome on every
response. -/
theorem C9_signup_login_equiv (creds : JsVal) (res : HttpResponse)
    (store : Storage) (now : Int) :
    (signupUser creds res store now).request.url = "http://localhost:3001/signup" ∧
    (loginUser creds res store now).request.url = "http://localhost:3001/login" ∧
    (signupUser creds res store now).request.method =
      (loginUser creds res store now).request.method ∧
    (signupUser creds res store now).request.authHeader =
      (loginUser creds res store now).request.authHeader ∧
    (signupUser creds res store now).request.body =
      (loginUser creds res store now).request.body ∧
    (signupUser creds res store now).dispatched =
      (loginUser creds res store now).dispatched ∧
    (signupUser creds res store now).store =
      (loginUser creds res store now).store ∧
    (signupUser creds res store now).result =
      (loginUser creds res store now).result := by
  cases hok : res.ok <;> simp [signupUser, loginUser, hok]

/-- C10: for the recognized events (`AUTHENTICATED` with a fixed payload,
or `NOT_AUTHENTICATED`) the reducer's output is independent of the input
state, and applying the same recognized event twice equals applying it
once. -/
theorem C10_recognized_state_independent (s s2 : AuthState) (p : JsVal) :
    authReducer s (.authenticated p) = authReducer s2 (.authenticated p) ∧
    authReducer s .notAuthenticated = authReducer s2 .notAuthenticated ∧
    authReducer (authReducer s (.authenticated p)) (.authenticated p) =
      authReducer s (.authenticated p) ∧
    authReducer (authReducer s .notAuthenticated) .notAuthenticated =
      authReducer s .notAuthenticated :=
  ⟨rfl, rfl, rfl, rfl⟩

end ReduxAuth
